import Mathlib

/-!
Shallow embedding of `src/okaara/shell.py`: an interactive text-menu shell
made of screens holding menu items, with trigger dispatch, navigation between
screens, and menu rendering.

Modelling conventions:
* Python dictionaries are insertion-ordered association lists; `listGet` and
  `listUpdate` model `d.get(k)` / `k in d` and `d[k] = v`.
* Python exceptions raised by an operation are modelled with
  `Except String`, the error string naming the Python exception type.
* A menu item's handler (`func`) is an abstract `Func` tag; the embedding
  records which function would be invoked and with which arguments instead
  of executing it.
* `str.split()` is `pySplit`: split on whitespace, dropping empty pieces.
-/

/-- Lookup in an insertion-ordered association list, the model of a Python
dictionary read (`d[k]`, `d.get(k)`, `k in d`). -/
def listGet {α : Type} (m : List (String × α)) (k : String) : Option α :=
  match m with
  | [] => none
  | (k', v) :: rest => if k' == k then some v else listGet rest k

/-- Update of an insertion-ordered association list, the model of a Python
dictionary write `d[k] = v`: replaces the value in place when the key is
present, appends a new binding otherwise. -/
def listUpdate {α : Type} (m : List (String × α)) (k : String) (v : α) :
    List (String × α) :=
  match m with
  | [] => [(k, v)]
  | (k', v') :: rest =>
      if k' == k then (k, v) :: rest else (k', v') :: listUpdate rest k v

/-- Accumulating scanner for `pySplit`: walks the characters, collecting the
current token in reverse in `acc` and emitting it when whitespace or the end
of the string is reached. -/
def pySplitAux : List Char → List Char → List String
  | [], acc => if acc.isEmpty then [] else [String.mk acc.reverse]
  | c :: cs, acc =>
      if c.isWhitespace then
        if acc.isEmpty then pySplitAux cs []
        else String.mk acc.reverse :: pySplitAux cs []
      else pySplitAux cs (c :: acc)

/-- Python `str.split()` with no separator argument: split on runs of
whitespace, with no empty tokens. -/
def pySplit (s : String) : List String :=
  pySplitAux s.toList []

/-- Abstract tag for the callables bound to menu items: the five bound
methods registered by `Shell.__init__`, the module-level `noop` stub, and
arbitrary user-supplied handlers. -/
inductive Func where
  | home
  | previous
  | render_menu
  | clear_screen
  | stop
  | noop
  | user (n : Nat)
deriving DecidableEq, Repr

/-- `MenuItem` (shell.py lines 351-405): triggers, description, handler and
the extra `*args` / `**kwargs` bound at construction time.  Bound positional
arguments and keyword values are modelled as strings, matching the
user-supplied tokens they are combined with. -/
structure MenuItem where
  triggers : List String
  description : String
  func : Func
  args : List String
  kwargs : List (String × String)
deriving DecidableEq, Repr

/-- `MenuItem.__eq__` (line 404-405): `self.triggers == other.triggers`,
Python list equality, which is order-sensitive. -/
def MenuItem.eq (a b : MenuItem) : Bool :=
  a.triggers == b.triggers

/-- `Screen` (lines 278-341): an id, a trigger-keyed dictionary of menu
items, and the ordered display list. -/
structure Screen where
  id : String
  menu_items : List (String × MenuItem)
  ordered_menu_items : List MenuItem
deriving DecidableEq, Repr

/-- `Screen.__init__` (lines 285-296). -/
def Screen.init (id : String) : Screen :=
  { id := id, menu_items := [], ordered_menu_items := [] }

/-- `Screen.add_menu_item` (lines 301-320): every trigger of the item is
written into `menu_items` (last write wins), and the item is appended to
`ordered_menu_items` only when no already-listed item compares equal to it
under `MenuItem.__eq__` (Python `menu_item not in self.ordered_menu_items`). -/
def Screen.add_menu_item (scr : Screen) (menu_item : MenuItem) : Screen :=
  { scr with
    menu_items :=
      menu_item.triggers.foldl (fun m trigger => listUpdate m trigger menu_item)
        scr.menu_items,
    ordered_menu_items :=
      if scr.ordered_menu_items.any (fun e => MenuItem.eq e menu_item) then
        scr.ordered_menu_items
      else
        scr.ordered_menu_items ++ [menu_item] }

/-- `Screen.item` (lines 322-332): `self.menu_items.get(trigger)`. -/
def Screen.item (scr : Screen) (trigger : String) : Option MenuItem :=
  listGet scr.menu_items trigger

/-- `Screen.items` (lines 334-341): `tuple(self.ordered_menu_items)`, a
snapshot of the display list. -/
def Screen.items (scr : Screen) : List MenuItem :=
  scr.ordered_menu_items

/-- The mutable state of a `Shell` (lines 26-90). -/
structure Shell where
  home_screen : Option Screen
  current_screen : Option Screen
  previous_screen : Option Screen
  screens : List (String × Screen)
  shell_menu_items : List (String × MenuItem)
  auto_render_menu : Bool
  prompt_prefix : String
deriving DecidableEq, Repr

/-- `Shell.add_menu_item` (lines 115-130): registers every trigger of the
item into the shell-level map, overwriting on collision. -/
def Shell.add_menu_item (s : Shell) (menu_item : MenuItem) : Shell :=
  { s with
    shell_menu_items :=
      menu_item.triggers.foldl (fun m trigger => listUpdate m trigger menu_item)
        s.shell_menu_items }

/-- `Shell.__init__` (lines 38-90): empty navigation state, the default
prompt prefix, and the five built-in shell-level menu items (home, previous,
help, clear, quit), with long trigger aliases when
`include_long_triggers` is set. -/
def Shell.init (auto_render_menu : Bool) (include_long_triggers : Bool) : Shell :=
  let home_triggers := if include_long_triggers then ["^", "home"] else ["^"]
  let previous_triggers := ["<"]
  let quit_triggers := if include_long_triggers then ["q", "quit", "exit"] else ["q"]
  let help_triggers := if include_long_triggers then ["?", "help"] else ["?"]
  let clear_triggers := if include_long_triggers then ["/", "clear"] else ["/"]
  let base : Shell :=
    { home_screen := none
      current_screen := none
      previous_screen := none
      screens := []
      shell_menu_items := []
      auto_render_menu := auto_render_menu
      prompt_prefix := "($s) => " }
  let base := base.add_menu_item ⟨home_triggers, "move to the home screen", Func.home, [], []⟩
  let base := base.add_menu_item ⟨previous_triggers, "move to the previous screen", Func.previous, [], []⟩
  let base := base.add_menu_item ⟨help_triggers, "display help", Func.render_menu, [], []⟩
  let base := base.add_menu_item ⟨clear_triggers, "clears the screen", Func.clear_screen, [], []⟩
  base.add_menu_item ⟨quit_triggers, "exit", Func.stop, [], []⟩

/-- `Shell.add_screen` (lines 92-113): registers/overwrites the screen by
id, makes it the current screen when none is set, and makes it the home
screen when `is_home` is true or no home screen is set yet.  The Python
method mutates the three fields in this order; each condition reads state
the earlier writes do not touch, so the simultaneous record update is
equivalent. -/
def Shell.add_screen (s : Shell) (screen : Screen) (is_home : Bool) : Shell :=
  { s with
    screens := listUpdate s.screens screen.id screen,
    current_screen :=
      if s.current_screen.isNone then some screen else s.current_screen,
    home_screen :=
      if is_home || s.home_screen.isNone then some screen else s.home_screen }

/-- Trigger resolution inside `Shell.start` (lines 157-167): the shell-level
map is consulted first; only when it has no entry is
`self.current_screen.item(trigger)` consulted.  When the fallback runs with
no current screen set, the attribute access on `None` raises. -/
def Shell.resolve (s : Shell) (trigger : String) : Except String (Option MenuItem) :=
  match listGet s.shell_menu_items trigger with
  | some item => Except.ok (some item)
  | none =>
      match s.current_screen with
      | none => Except.error "AttributeError"
      | some scr => Except.ok (scr.item trigger)

/-- Outcome of reading one line from the prompt service: a line (possibly
`None`) or the `EOFError` / `KeyboardInterrupt` signal. -/
inductive ReadResult where
  | line (input : Option String)
  | eof
deriving DecidableEq, Repr

/-- What one iteration of the `Shell.start` loop decides to do. -/
inductive IterResult where
  /-- the `except (EOFError, KeyboardInterrupt)` path: `start` returns -/
  | returned
  /-- loop again without dispatching (blank input or unknown trigger) -/
  | continued
  /-- dispatch `item.func` via `execute` with the given arguments -/
  | invoked (func : Func) (args : List String) (kwargs : List (String × String))
deriving DecidableEq, Repr

/-- One iteration of the `Shell.start` loop (lines 134-178), up to the point
where the selected handler would be executed.  Returns the lines written to
the prompt service, the shell state, and the iteration's outcome.
`_prompt_prefix` (line 274) dereferences `self.current_screen.id` before the
read happens, so an absent current screen raises first.  The `.invoked`
outcome records `item.args + tuple(command_args)` and `item.kwargs` exactly
as lines 171-172 build them. -/
def Shell.startIteration (s : Shell) (r : ReadResult) :
    Except String (List String × Shell × IterResult) :=
  match s.current_screen with
  | none => Except.error "AttributeError"
  | some _ =>
    match r with
    | ReadResult.eof => Except.ok (["\n"], s, IterResult.returned)
    | ReadResult.line input =>
      match input with
      | none => Except.ok ([], s, IterResult.continued)
      | some inp =>
        match pySplit inp with
        | [] => Except.ok ([], s, IterResult.continued)
        | trigger :: command_args =>
          match s.resolve trigger with
          | Except.error e => Except.error e
          | Except.ok none =>
              Except.ok (["Invalid menu item; type \"?\" for a list of available commands"],
                s, IterResult.continued)
          | Except.ok (some item) =>
              Except.ok ([], s,
                IterResult.invoked item.func (item.args ++ command_args) item.kwargs)

/-- Resolution of the target id in `Shell.transition` (lines 206-208): a
null or unregistered id is replaced, after an error log, by
`self.home_screen.id`; with no home screen set, that attribute access on
`None` raises. -/
def Shell.resolveTransitionId (s : Shell) (to_screen_id : Option String) :
    Except String String :=
  match to_screen_id with
  | none =>
      match s.home_screen with
      | none => Except.error "AttributeError"
      | some h => Except.ok h.id
  | some tid =>
      if (listGet s.screens tid).isSome then Except.ok tid
      else
        match s.home_screen with
        | none => Except.error "AttributeError"
        | some h => Except.ok h.id

/-- `Shell.transition` (lines 197-211): resolve the id, then set
`previous_screen` to the old `current_screen` and `current_screen` to
`self.screens[resolved_id]` (a missing key would raise `KeyError`). -/
def Shell.transition (s : Shell) (to_screen_id : Option String) : Except String Shell :=
  match s.resolveTransitionId to_screen_id with
  | Except.error e => Except.error e
  | Except.ok rid =>
      match listGet s.screens rid with
      | none => Except.error "KeyError"
      | some scr =>
          Except.ok { s with
            previous_screen := s.current_screen,
            current_screen := some scr }

/-- `Shell.home` (lines 223-227): `self.transition(self.home_screen.id)`;
the attribute access raises when no home screen is set. -/
def Shell.home (s : Shell) : Except String Shell :=
  match s.home_screen with
  | none => Except.error "AttributeError"
  | some h => s.transition (some h.id)

/-- `Shell.previous` (lines 213-221): go home when there is no previous
screen, otherwise transition to its id. -/
def Shell.previous (s : Shell) : Except String Shell :=
  match s.previous_screen with
  | none => s.home
  | some p => s.transition (some p.id)

/-- Python `'%-4s' % t`: left-justify to a minimum width of four with
spaces, longer strings unchanged. -/
def ljust (width : Nat) (t : String) : String :=
  t ++ String.mk (List.replicate (width - t.length) ' ')

/-- `Shell._render_menu_item` (lines 260-268) as a function from a trigger
string and description to the lines written: one padded line when the
trigger is shorter than four characters, otherwise the trigger line followed
by an indented description line. -/
def Shell.render_menu_item (trigger description : String) : List String :=
  if trigger.length < 4 then
    ["   " ++ ljust 4 trigger ++ description]
  else
    ["   " ++ trigger, "       " ++ description]

/-- `Shell.render_menu` (lines 237-258).  Line 245 (and likewise line 256)
reads `item.trigger`, an attribute `MenuItem` does not define — the class
defines `triggers` — so iterating over any non-empty item collection raises
`AttributeError` at the first item.  The successful paths therefore are
exactly those in which both loops have nothing to iterate over, and they
write only the blank separator lines. -/
def Shell.render_menu (s : Shell) (display_shell_menu : Bool) :
    Except String (List String) :=
  match s.current_screen with
  | none => Except.error "AttributeError"
  | some scr =>
    match scr.items with
    | _ :: _ => Except.error "AttributeError"
    | [] =>
      if display_shell_menu then
        if s.shell_menu_items.length > 0 then Except.error "AttributeError"
        else Except.ok ["", "", ""]
      else Except.ok ["", ""]

/-- Shell states reachable through the public construction and navigation
operations of `shell.py`. -/
inductive Reachable : Shell → Prop where
  | init (a l : Bool) : Reachable (Shell.init a l)
  | add_screen {s : Shell} (scr : Screen) (b : Bool) :
      Reachable s → Reachable (s.add_screen scr b)
  | add_menu_item {s : Shell} (it : MenuItem) :
      Reachable s → Reachable (s.add_menu_item it)
  | transition {s s' : Shell} (tid : Option String) :
      Reachable s → s.transition tid = Except.ok s' → Reachable s'
  | home {s s' : Shell} :
      Reachable s → s.home = Except.ok s' → Reachable s'
  | previous {s s' : Shell} :
      Reachable s → s.previous = Except.ok s' → Reachable s'

/-- Invariant: whenever a home screen is set, its id is a registered key of
`screens`. -/
def HomeRegistered (s : Shell) : Prop :=
  ∀ h : Screen, s.home_screen = some h → (listGet s.screens h.id).isSome = true

/-! ### Concrete states used by witnesses and counterexamples -/

/-- A user menu item with one trigger, a bound positional argument and a
bound keyword argument. -/
def itemX : MenuItem := ⟨["x"], "example item", Func.user 0, ["b0"], [("k", "v")]⟩

/-- A screen-level item whose trigger collides with the built-in quit
trigger. -/
def itemQ : MenuItem := ⟨["q"], "screen-level quit", Func.user 1, [], []⟩

/-- The built-in quit item registered by `Shell.__init__` with long triggers
enabled. -/
def quitBuiltin : MenuItem := ⟨["q", "quit", "exit"], "exit", Func.stop, [], []⟩

def screenMain : Screen := (Screen.init "main").add_menu_item itemX

def shellMain : Shell := (Shell.init false true).add_screen screenMain false

def screenQ : Screen := ((Screen.init "main").add_menu_item itemX).add_menu_item itemQ

def shellQ : Shell := (Shell.init false true).add_screen screenQ false

/-- Two items with the same trigger list and different description/handler. -/
def itemOld : MenuItem := ⟨["a", "b"], "old description", Func.user 2, [], []⟩

def itemNew : MenuItem := ⟨["a", "b"], "new description", Func.user 3, [], []⟩

/-- Two items whose trigger lists hold the same strings in different order. -/
def itemAB : MenuItem := ⟨["a", "b"], "first", Func.user 4, [], []⟩

def itemBA : MenuItem := ⟨["b", "a"], "second", Func.user 5, [], []⟩

def screenSwap : Screen := ((Screen.init "s").add_menu_item itemAB).add_menu_item itemBA

/-- A screen that re-registers the id `"a"` with different content. -/
def screenAlias2 : Screen := (Screen.init "a").add_menu_item itemX

/-- Shell whose home screen object was displaced in `screens` by a later
`add_screen` with the same id. -/
def shellAlias : Shell :=
  ((Shell.init false true).add_screen (Screen.init "a") false).add_screen screenAlias2 false

def shellW5 : Shell := (Shell.init false true).add_screen (Screen.init "a") false

/-! ### Association-list lemmas -/

theorem listGet_update_self {α : Type} (m : List (String × α)) (k : String) (v : α) :
    listGet (listUpdate m k v) k = some v := by
  induction m with
  | nil => simp [listUpdate, listGet]
  | cons p rest ih =>
    obtain ⟨k', v'⟩ := p
    by_cases h : k' = k
    · subst h; simp [listUpdate, listGet]
    · simp [listUpdate, listGet, h, ih]

theorem listGet_update_ne {α : Type} (m : List (String × α)) (k k' : String) (v : α)
    (h : k' ≠ k) : listGet (listUpdate m k v) k' = listGet m k' := by
  induction m with
  | nil => simp [listUpdate, listGet, Ne.symm h]
  | cons p rest ih =>
    obtain ⟨k₀, v₀⟩ := p
    by_cases hk : k₀ = k
    · subst hk
      simp [listUpdate, listGet, Ne.symm h]
    · simp [listUpdate, listGet, hk, ih]

theorem listGet_update_isSome {α : Type} (m : List (String × α)) (k k' : String) (v : α)
    (h : (listGet m k').isSome = true) :
    (listGet (listUpdate m k v) k').isSome = true := by
  by_cases hk : k' = k
  · subst hk; rw [listGet_update_self]; rfl
  · rw [listGet_update_ne _ _ _ _ hk]; exact h

theorem listGet_foldl_update {α : Type} (ts : List String) (m : List (String × α))
    (v : α) (t : String) (h : t ∈ ts ∨ listGet m t = some v) :
    listGet (ts.foldl (fun acc tr => listUpdate acc tr v) m) t = some v := by
  induction ts generalizing m with
  | nil =>
    rcases h with h | h
    · cases h
    · simpa using h
  | cons tr rest ih =>
    simp only [List.foldl_cons]
    apply ih
    by_cases htr : t = tr
    · right; subst htr; exact listGet_update_self m t v
    · rcases h with h | h
      · rcases List.mem_cons.mp h with h1 | h1
        · exact absurd h1 htr
        · left; exact h1
      · right
        rw [listGet_update_ne m tr t v htr]
        exact h

/-! ### Screen registration lemmas -/

theorem add_menu_item_mem_triggers (scr : Screen) (item : MenuItem) :
    ∃ e ∈ (scr.add_menu_item item).ordered_menu_items, e.triggers = item.triggers := by
  by_cases hany : scr.ordered_menu_items.any (fun e => MenuItem.eq e item) = true
  · obtain ⟨e, he, heq⟩ := List.any_eq_true.mp hany
    refine ⟨e, ?_, ?_⟩
    · simp [Screen.add_menu_item, hany, he]
    · simpa [MenuItem.eq] using heq
  · refine ⟨item, ?_, rfl⟩
    simp [Screen.add_menu_item, hany]

theorem add_menu_item_ordered_of_dup (scr : Screen) (item : MenuItem)
    (h : ∃ e ∈ scr.ordered_menu_items, e.triggers = item.triggers) :
    (scr.add_menu_item item).ordered_menu_items = scr.ordered_menu_items := by
  obtain ⟨e, he, heq⟩ := h
  have hany : scr.ordered_menu_items.any (fun x => MenuItem.eq x item) = true :=
    List.any_eq_true.mpr ⟨e, he, by simp [MenuItem.eq, heq]⟩
  simp [Screen.add_menu_item, hany]

theorem add_menu_item_lookup (scr : Screen) (item : MenuItem) (t : String)
    (ht : t ∈ item.triggers) :
    (scr.add_menu_item item).item t = some item := by
  simp only [Screen.item, Screen.add_menu_item]
  exact listGet_foldl_update item.triggers scr.menu_items item t (Or.inl ht)

/-! ### Transition state lemmas -/

theorem transition_ok_fields {s s' : Shell} {tid : Option String}
    (h : s.transition tid = Except.ok s') :
    s'.screens = s.screens ∧ s'.home_screen = s.home_screen := by
  unfold Shell.transition at h
  split at h
  · simp at h
  · split at h
    · simp at h
    · simp only [Except.ok.injEq] at h
      subst h
      exact ⟨rfl, rfl⟩

theorem home_ok_fields {s s' : Shell} (h : s.home = Except.ok s') :
    s'.screens = s.screens ∧ s'.home_screen = s.home_screen := by
  unfold Shell.home at h
  split at h
  · simp at h
  · exact transition_ok_fields h

theorem previous_ok_fields {s s' : Shell} (h : s.previous = Except.ok s') :
    s'.screens = s.screens ∧ s'.home_screen = s.home_screen := by
  unfold Shell.previous at h
  split at h
  · exact home_ok_fields h
  · exact transition_ok_fields h

theorem homeRegistered_of_fields {s s' : Shell}
    (hscr : s'.screens = s.screens) (hhome : s'.home_screen = s.home_screen)
    (ih : HomeRegistered s) : HomeRegistered s' := by
  intro h hh
  rw [hhome] at hh
  rw [hscr]
  exact ih h hh

theorem reachable_home_registered {s : Shell} (hr : Reachable s) : HomeRegistered s := by
  induction hr with
  | init a l =>
    intro h hh
    simp [Shell.init, Shell.add_menu_item] at hh
  | add_screen scr b _ ih =>
    intro h hh
    simp only [Shell.add_screen] at hh ⊢
    split at hh
    · injection hh with hh
      subst hh
      rw [listGet_update_self]
      rfl
    · exact listGet_update_isSome _ _ _ _ (ih h hh)
  | add_menu_item it _ ih =>
    intro h hh
    simp only [Shell.add_menu_item] at hh ⊢
    exact ih h hh
  | transition tid _ heq ih =>
    obtain ⟨hscr, hhome⟩ := transition_ok_fields heq
    exact homeRegistered_of_fields hscr hhome ih
  | home _ heq ih =>
    obtain ⟨hscr, hhome⟩ := home_ok_fields heq
    exact homeRegistered_of_fields hscr hhome ih
  | previous _ heq ih =>
    obtain ⟨hscr, hhome⟩ := previous_ok_fields heq
    exact homeRegistered_of_fields hscr hhome ih

/-! ### Claim theorems -/

/-- C1: for a trigger registered both in the shell-level map and on the
current screen, the run loop's resolution selects the shell-level (global)
item; the screen's lookup is consulted only for triggers the shell-level map
has no entry for. -/
theorem shell_trigger_precedes_screen (s : Shell) (t : String) (scr : Screen)
    (gi si : MenuItem)
    (hc : s.current_screen = some scr)
    (hg : listGet s.shell_menu_items t = some gi)
    (hs : scr.item t = some si) :
    s.resolve t = Except.ok (some gi) ∧
    ∀ u : String, listGet s.shell_menu_items u = none →
      s.resolve u = Except.ok (scr.item u) := by
  constructor
  · simp [Shell.resolve, hg]
  · intro u hu
    simp [Shell.resolve, hu, hc]

theorem shell_trigger_precedes_screen_witness :
    shellQ.current_screen = some screenQ ∧
    listGet shellQ.shell_menu_items "q" = some quitBuiltin ∧
    screenQ.item "q" = some itemQ ∧
    shellQ.resolve "q" = Except.ok (some quitBuiltin) :=
  ⟨rfl, rfl, rfl,
    (shell_trigger_precedes_screen shellQ "q" screenQ quitBuiltin itemQ rfl rfl rfl).1⟩

/-- C2 (code bug): `_render_menu_item` itself formats exactly as the claim
describes (one padded line for a trigger shorter than four characters, two
lines otherwise), but `render_menu` never reaches it for a screen with any
item: line 245 reads `item.trigger`, an attribute `MenuItem` does not define
(the class defines `triggers`), so rendering the menu of a screen holding a
`MenuItem` raises `AttributeError` instead of emitting the item's line(s). -/
theorem render_menu_raises_attribute_error :
    Shell.render_menu_item "ok" "descr" = ["   ok  descr"] ∧
    Shell.render_menu_item "longtrig" "descr" = ["   longtrig", "       descr"] ∧
    shellMain.render_menu true = Except.error "AttributeError" :=
  ⟨rfl, rfl, rfl⟩

/-- C3 counterexample: `MenuItem.__eq__` compares trigger lists with Python
list equality, so two items whose trigger collections hold the same set of
strings in different order do not compare equal, contradicting the claim's
own example. -/
theorem menu_item_eq_order_counterexample :
    List.Perm itemAB.triggers itemBA.triggers ∧ MenuItem.eq itemAB itemBA = false :=
  ⟨by decide, rfl⟩

/-- C3 (amended): two MenuItems compare equal under `__eq__` exactly when
their trigger lists are equal as sequences (same strings in the same
order); descriptions, handlers and bound arguments are ignored. -/
theorem menu_item_eq_iff_equal_trigger_lists (a b : MenuItem) :
    MenuItem.eq a b = true ↔ a.triggers = b.triggers := by
  simp [MenuItem.eq]

/-- C4: on a fresh shell, the first screen added becomes the current screen
and the home screen regardless of its `is_home` flag; after a second
`add_screen`, the current screen is still the first screen and the home
screen is the second screen exactly when `is_home` was passed as true. -/
theorem add_screen_first_current_home (a l b1 b2 : Bool) (s1 s2 : Screen) :
    ((Shell.init a l).add_screen s1 b1).current_screen = some s1 ∧
    ((Shell.init a l).add_screen s1 b1).home_screen = some s1 ∧
    (((Shell.init a l).add_screen s1 b1).add_screen s2 b2).current_screen = some s1 ∧
    (((Shell.init a l).add_screen s1 b1).add_screen s2 b2).home_screen
      = some (if b2 then s2 else s1) := by
  refine ⟨?_, ?_, ?_, ?_⟩ <;>
    simp [Shell.init, Shell.add_menu_item, Shell.add_screen] <;>
    cases b2 <;> simp

/-- C5 counterexample: after a second `add_screen` re-uses the home screen's
id, `transition` to an unknown id sets `current_screen` to the screen now
registered under that id, which is no longer the `home_screen` object, so
the claim's "sets current_screen to home_screen" fails on a reachable
shell. -/
theorem transition_home_alias_counterexample :
    Reachable shellAlias ∧
    shellAlias.home_screen = some (Screen.init "a") ∧
    (shellAlias.transition (some "zzz")).map Shell.current_screen
      = Except.ok (some screenAlias2) ∧
    screenAlias2 ≠ Screen.init "a" :=
  ⟨Reachable.add_screen screenAlias2 false
      (Reachable.add_screen (Screen.init "a") false (Reachable.init false true)),
    rfl, rfl, by decide⟩

/-- C5 (amended): on every reachable shell whose home screen is set,
`transition` with a null or unregistered screen id raises no exception: it
sets `previous_screen` to the screen that was current before the call and
`current_screen` to the screen registered in `screens` under the home
screen's id — the home screen object itself unless a later `add_screen`
re-used that id. -/
theorem transition_bad_id_defaults_to_home_id
    (s : Shell) (h : Screen) (tid : Option String)
    (hr : Reachable s) (hh : s.home_screen = some h)
    (hbad : tid = none ∨ ∃ x, tid = some x ∧ listGet s.screens x = none) :
    (listGet s.screens h.id).isSome = true ∧
    ∀ scr : Screen, listGet s.screens h.id = some scr →
      s.transition tid = Except.ok
        { s with previous_screen := s.current_screen, current_screen := some scr } := by
  refine ⟨reachable_home_registered hr h hh, ?_⟩
  intro scr hscr
  have hres : s.resolveTransitionId tid = Except.ok h.id := by
    rcases hbad with rfl | ⟨x, rfl, hx⟩
    · simp [Shell.resolveTransitionId, hh]
    · simp [Shell.resolveTransitionId, hx, hh]
  simp [Shell.transition, hres, hscr]

theorem transition_bad_id_defaults_to_home_id_witness :
    shellW5.home_screen = some (Screen.init "a") ∧
    listGet shellW5.screens "zzz" = none ∧
    shellW5.transition (some "zzz") = Except.ok
      { shellW5 with
        previous_screen := shellW5.current_screen,
        current_screen := some (Screen.init "a") } :=
  ⟨rfl, rfl,
    (transition_bad_id_defaults_to_home_id shellW5 (Screen.init "a") (some "zzz")
        (Reachable.add_screen (Screen.init "a") false (Reachable.init false true)) rfl
        (Or.inr ⟨"zzz", rfl, rfl⟩)).2 (Screen.init "a") rfl⟩

/-- C6: when the read signals `EOFError` / `KeyboardInterrupt`, the loop
iteration writes a newline, returns without dispatching, raises nothing,
and leaves the shell state unchanged. -/
theorem eof_exits_loop_unchanged (s : Shell) (scr : Screen)
    (hc : s.current_screen = some scr) :
    s.startIteration ReadResult.eof = Except.ok (["\n"], s, IterResult.returned) := by
  simp [Shell.startIteration, hc]

theorem eof_exits_loop_unchanged_witness :
    shellMain.current_screen = some screenMain ∧
    shellMain.startIteration ReadResult.eof
      = Except.ok (["\n"], shellMain, IterResult.returned) :=
  ⟨rfl, eof_exits_loop_unchanged shellMain screenMain rfl⟩

/-- C7 counterexample: re-registering an item whose trigger collection holds
the same set of strings in a different order does add a second display
entry, because `__eq__` compares trigger lists, not sets — even though both
lookups now return the new item. -/
theorem reregister_trigger_set_counterexample :
    List.Perm itemAB.triggers itemBA.triggers ∧
    screenSwap.item "a" = some itemBA ∧
    screenSwap.item "b" = some itemBA ∧
    screenSwap.ordered_menu_items = [itemAB, itemBA] :=
  ⟨by decide, rfl, rfl, rfl⟩

/-- C7 (amended): re-registering on a screen an item whose trigger list
equals that of an already-registered item (same strings in the same order)
makes lookup of each of its triggers return the new item, while the ordered
display list gains no entry. -/
theorem reregister_same_trigger_list_lookup_display
    (scr : Screen) (i1 i2 : MenuItem) (t : String)
    (htr : i1.triggers = i2.triggers) (ht : t ∈ i2.triggers) :
    ((scr.add_menu_item i1).add_menu_item i2).item t = some i2 ∧
    ((scr.add_menu_item i1).add_menu_item i2).ordered_menu_items
      = (scr.add_menu_item i1).ordered_menu_items := by
  constructor
  · exact add_menu_item_lookup (scr.add_menu_item i1) i2 t ht
  · apply add_menu_item_ordered_of_dup
    obtain ⟨e, he, heq⟩ := add_menu_item_mem_triggers scr i1
    exact ⟨e, he, heq.trans htr⟩

theorem reregister_same_trigger_list_lookup_display_witness :
    itemOld.triggers = itemNew.triggers ∧
    "a" ∈ itemNew.triggers ∧
    (((screenMain.add_menu_item itemOld).add_menu_item itemNew).item "a" = some itemNew ∧
      ((screenMain.add_menu_item itemOld).add_menu_item itemNew).ordered_menu_items
        = (screenMain.add_menu_item itemOld).ordered_menu_items) :=
  ⟨rfl, by decide,
    reregister_same_trigger_list_lookup_display screenMain itemOld itemNew "a" rfl (by decide)⟩

/-- C8: a dispatched handler receives the item's bound positional arguments
followed by the whitespace-split user tokens after the trigger, and the
item's bound keyword arguments. -/
theorem dispatch_bound_args_then_user_tokens (s : Shell) (scr : Screen)
    (inp trigger : String) (rest : List String) (item : MenuItem)
    (hc : s.current_screen = some scr)
    (hsplit : pySplit inp = trigger :: rest)
    (hres : s.resolve trigger = Except.ok (some item)) :
    s.startIteration (ReadResult.line (some inp))
      = Except.ok ([], s, IterResult.invoked item.func (item.args ++ rest) item.kwargs) := by
  simp [Shell.startIteration, hc, hsplit, hres]

theorem dispatch_bound_args_then_user_tokens_witness :
    shellMain.current_screen = some screenMain ∧
    pySplit "x arg1" = ["x", "arg1"] ∧
    shellMain.resolve "x" = Except.ok (some itemX) ∧
    shellMain.startIteration (ReadResult.line (some "x arg1"))
      = Except.ok ([], shellMain,
          IterResult.invoked (Func.user 0) ["b0", "arg1"] [("k", "v")]) :=
  ⟨rfl, rfl, rfl,
    dispatch_bound_args_then_user_tokens shellMain screenMain "x arg1" "x" ["arg1"]
      itemX rfl rfl rfl⟩

/-- C9: on a shell with no screen ever added (`home_screen` null, `screens`
empty), `home()`, `previous()` and `transition(any_id)` all raise an
uncaught `AttributeError` from dereferencing the null home screen's id. -/
theorem no_screen_navigation_raises (s : Shell) (tid : Option String)
    (hh : s.home_screen = none) (hs : s.screens = []) :
    s.home = Except.error "AttributeError" ∧
    s.previous = Except.error "AttributeError" ∧
    s.transition tid = Except.error "AttributeError" := by
  have htr : ∀ t : Option String, s.transition t = Except.error "AttributeError" := by
    intro t
    have hres : s.resolveTransitionId t = Except.error "AttributeError" := by
      cases t with
      | none => simp [Shell.resolveTransitionId, hh]
      | some x => simp [Shell.resolveTransitionId, hh, hs, listGet]
    simp [Shell.transition, hres]
  refine ⟨?_, ?_, htr tid⟩
  · simp [Shell.home, hh]
  · unfold Shell.previous
    cases hps : s.previous_screen with
    | none => simp [Shell.home, hh]
    | some p => exact htr (some p.id)

theorem no_screen_navigation_raises_witness :
    (Shell.init false true).home_screen = none ∧
    (Shell.init false true).screens = [] ∧
    ((Shell.init false true).home = Except.error "AttributeError" ∧
      (Shell.init false true).previous = Except.error "AttributeError" ∧
      (Shell.init false true).transition (some "main") = Except.error "AttributeError") :=
  ⟨rfl, rfl, no_screen_navigation_raises (Shell.init false true) (some "main") rfl rfl⟩

/-- C10 counterexample: when the re-registered item's trigger collection
holds the same set of strings in a different order, the display list does
contain the newly registered item (alongside the original), contrary to the
claim that `items()` keeps only the original. -/
theorem display_contains_new_item_counterexample :
    List.Perm itemAB.triggers itemBA.triggers ∧
    itemBA ∈ screenSwap.items ∧
    itemAB ∈ screenSwap.items ∧
    screenSwap.item "a" = some itemBA :=
  ⟨by decide, by decide, by decide, rfl⟩

/-- C10 (amended): after re-registering an item whose trigger list equals
(same order) that of the single already-registered item, `items()` still
holds exactly the original item object and not the new one, while
`item(trigger)` returns the new one. -/
theorem reregister_display_keeps_original_item
    (id : String) (i1 i2 : MenuItem) (t : String)
    (htr : i1.triggers = i2.triggers) (hne : i1 ≠ i2) (ht : t ∈ i2.triggers) :
    (((Screen.init id).add_menu_item i1).add_menu_item i2).items = [i1] ∧
    i2 ∉ (((Screen.init id).add_menu_item i1).add_menu_item i2).items ∧
    (((Screen.init id).add_menu_item i1).add_menu_item i2).item t = some i2 := by
  have h1 : ((Screen.init id).add_menu_item i1).ordered_menu_items = [i1] := by
    simp [Screen.init, Screen.add_menu_item]
  have h2 : (((Screen.init id).add_menu_item i1).add_menu_item i2).ordered_menu_items
      = [i1] := by
    rw [add_menu_item_ordered_of_dup _ _ ⟨i1, by rw [h1]; exact List.mem_singleton_self i1, htr⟩]
    exact h1
  refine ⟨?_, ?_, ?_⟩
  · simpa [Screen.items] using h2
  · simp only [Screen.items, h2, List.mem_singleton]
    exact fun hcontra => hne (hcontra.symm)
  · exact add_menu_item_lookup _ i2 t ht

theorem reregister_display_keeps_original_item_witness :
    itemOld.triggers = itemNew.triggers ∧
    itemOld ≠ itemNew ∧
    "a" ∈ itemNew.triggers ∧
    ((((Screen.init "s").add_menu_item itemOld).add_menu_item itemNew).items = [itemOld] ∧
      itemNew ∉ (((Screen.init "s").add_menu_item itemOld).add_menu_item itemNew).items ∧
      (((Screen.init "s").add_menu_item itemOld).add_menu_item itemNew).item "a"
        = some itemNew) :=
  ⟨rfl, by decide, by decide,
    reregister_display_keeps_original_item "s" itemOld itemNew "a" rfl (by decide) (by decide)⟩
